import Mathlib

/-!
Verification of the superqemu VM supervisor (`src/src/QemuVM.ts`).

The TypeScript supervisor is shallowly embedded: the `QemuVM` object state is a
Lean structure, each method is a pure function from the object state to a new
state together with the list of externally observable actions it performs
(state-change emissions, process launches, teardown steps), and a thrown
JavaScript `Error` is an `Except.error`. The `process.platform === 'win32'`
check is threaded through as an explicit `win32 : Bool` parameter.
-/

namespace Superqemu

/-- `VMState` enumeration from QemuVM.ts. -/
inductive VMState
  | Stopped
  | Starting
  | Started
  | Stopping
deriving DecidableEq, Repr

/-- `QemuVmDefinition`: `vncHost`/`vncPort` are optional (`undefined` is `none`). -/
structure QemuVmDefinition where
  id : String
  command : String
  snapshot : Bool
  forceTcp : Bool
  vncHost : Option String
  vncPort : Option Nat
deriving DecidableEq, Repr

/-- `QemuVMDisplayInfo`: tagged union of the two display kinds. -/
inductive QemuVMDisplayInfo
  | vncUds (path : String)
  | vncTcp (host : String) (port : Nat)
deriving DecidableEq, Repr

/-- Temporary path base (for UNIX sockets/etc.), constant `kVmTmpPathBase`. -/
def kVmTmpPathBase : String := "/tmp"

/-- JavaScript `v || dflt` on an optional string: `undefined` and `""` are falsy. -/
def jsOrStr (v : Option String) (dflt : String) : String :=
  match v with
  | none => dflt
  | some s => if s = "" then dflt else s

/-- JavaScript `v || dflt` on an optional number: `undefined` and `0` are falsy. -/
def jsOrNat (v : Option Nat) (dflt : Nat) : Nat :=
  match v with
  | none => dflt
  | some n => if n = 0 then dflt else n

/-- Externally observable actions performed by supervisor methods, in program
order: process disposal/launch/kill, nulling the tracked process reference,
QMP client reset and writer (un)binding, best-effort socket unlink, state-change
emissions, error logging, and a pass-through `execute` on the QMP client. -/
inductive Action
  | disposeProcess
  | nullProcess
  | resetClient
  | unbindWriter
  | unlinkVncSocket
  | setState (s : VMState)
  | launch (cmd : String)
  | killProcess
  | logError
  | qmpExecute (command : String)
deriving DecidableEq, Repr

/-- The mutable fields of a `QemuVM` object. The tracked process
(`qemuProcess`) carries the command line it was launched with, which is also
the `split` argument captured by its `exit` handler closure. -/
structure QemuVM where
  state : VMState
  qemuProcess : Option String
  displayInfo : Option QemuVMDisplayInfo
  definition : QemuVmDefinition
  addedAdditionalArguments : Bool
deriving DecidableEq, Repr

/-- The `QemuVM` constructor: initializes fields and registers QMP listeners.
It performs no validation and cannot throw. -/
def QemuVM.make (d : QemuVmDefinition) : QemuVM :=
  { state := VMState.Stopped
    qemuProcess := none
    displayInfo := none
    definition := d
    addedAdditionalArguments := false }

/-- `GetVncPath()`: the UDS rendezvous path for a definition. -/
def GetVncPath (d : QemuVmDefinition) : String :=
  kVmTmpPathBase ++ "/superqemu-" ++ d.id ++ "-vnc"

/-- `StartQemu(split)`: sets state to `Starting` (emitting `statechange`), then
launches the process with the given command line and tracks it. -/
def StartQemu (vm : QemuVM) (split : String) : QemuVM × List Action :=
  ({ vm with state := VMState.Starting, qemuProcess := some split },
   [Action.setState VMState.Starting, Action.launch split])

/-- `Start()`: no-op if a process is tracked; otherwise assembles the
additional command-line arguments once (`-no-shutdown`, optional `-snapshot`,
`-qmp stdio`, and the `-vnc` flag with the display info), then calls
`StartQemu`. The TCP branch throws when the substituted port is below 5900. -/
def Start (win32 : Bool) (vm : QemuVM) : Except String (QemuVM × List Action) :=
  if vm.qemuProcess.isSome then Except.ok (vm, [])
  else
    let cmd0 := vm.definition.command
    if vm.addedAdditionalArguments = false then
      let cmd1 := cmd0 ++ " -no-shutdown"
      let cmd2 := if vm.definition.snapshot then cmd1 ++ " -snapshot" else cmd1
      let cmd3 := cmd2 ++ " -qmp stdio"
      if vm.definition.forceTcp || win32 then
        let host := jsOrStr vm.definition.vncHost "127.0.0.1"
        let port := jsOrNat vm.definition.vncPort 5900
        if port < 5900 then
          Except.error "VNC port must be greater than or equal to 5900"
        else
          let cmd4 := cmd3 ++ " -vnc " ++ host ++ ":" ++ toString (port - 5900)
          let vm1 := { vm with
            displayInfo := some (QemuVMDisplayInfo.vncTcp host port)
            definition := { vm.definition with command := cmd4 }
            addedAdditionalArguments := true }
          Except.ok (StartQemu vm1 cmd4)
      else
        let cmd4 := cmd3 ++ " -vnc unix:" ++ GetVncPath vm.definition
        let vm1 := { vm with
          displayInfo := some (QemuVMDisplayInfo.vncUds (GetVncPath vm.definition))
          definition := { vm.definition with command := cmd4 }
          addedAdditionalArguments := true }
        Except.ok (StartQemu vm1 cmd4)
    else
      Except.ok (StartQemu vm cmd0)

/-- The `exit` handler installed by `StartQemu` on the tracked process, run
with the closure-captured command `split` and the reported exit `code`
(`none` models a `null` code). In program order it: disposes and nulls the
tracked process, resets the QMP client and unbinds its writer, best-effort
unlinks the VNC UDS socket when `!forceTcp || platform !== win32`, and then
branches on state and exit code (relaunch / terminal stop / requested stop). -/
def HandleExit (win32 : Bool) (vm : QemuVM) (split : String) (code : Option Int) :
    QemuVM × List Action :=
  let vm1 := { vm with qemuProcess := none }
  let teardown :=
    [Action.disposeProcess, Action.nullProcess, Action.resetClient, Action.unbindWriter]
  let teardown2 :=
    if !vm.definition.forceTcp || !win32 then teardown ++ [Action.unlinkVncSocket]
    else teardown
  if vm1.state ≠ VMState.Stopping then
    if code = some 0 then
      let (vm2, acts) := StartQemu vm1 split
      (vm2, teardown2 ++ acts)
    else
      ({ vm1 with state := VMState.Stopped, qemuProcess := none },
       teardown2 ++ [Action.logError, Action.setState VMState.Stopped, Action.nullProcess])
  else
    ({ vm1 with state := VMState.Stopped, qemuProcess := none },
     teardown2 ++ [Action.setState VMState.Stopped, Action.nullProcess])

/-- `AssertState(stateShouldBe, message)`: throws unless the state matches. -/
def AssertState (vm : QemuVM) (stateShouldBe : VMState) (message : String) :
    Except String Unit :=
  if vm.state ≠ stateShouldBe then Except.error message else Except.ok ()

/-- `Stop()`: asserts `Started`, sets `Stopping` (emitting `statechange`),
kills the tracked process if any, and then awaits the next `statechange` that
reports `Stopped` before resolving. Only its synchronous part is returned; the
resolution condition is `stopResolutionIndex` over the subsequent trace. -/
def Stop (vm : QemuVM) : Except String (QemuVM × List Action) :=
  match AssertState vm VMState.Started "cannot use QemuVM#Stop on a non-started VM" with
  | Except.error e => Except.error e
  | Except.ok _ =>
    let vm1 := { vm with state := VMState.Stopping }
    let killActs := if vm1.qemuProcess.isSome then [Action.killProcess] else []
    Except.ok (vm1, Action.setState VMState.Stopping :: killActs)

/-- `QmpCommand(command, args)`: passes straight through to
`qmpInstance.execute` with no state assertion. -/
def QmpCommand (vm : QemuVM) (command : String) : Except String (QemuVM × List Action) :=
  Except.ok (vm, [Action.qmpExecute command])

/-- `MonitorCommand(command)`: asserts `Started`, then issues the
`human-monitor-command` QMP command. -/
def MonitorCommand (vm : QemuVM) (_command : String) : Except String (QemuVM × List Action) :=
  match AssertState vm VMState.Started "cannot use QemuVM#MonitorCommand on a non-started VM" with
  | Except.error e => Except.error e
  | Except.ok _ => QmpCommand vm "human-monitor-command"

/-- `ChangeRemovableMedia(deviceName, imagePath)`: asserts `Started`, then
issues the `blockdev-change-medium` QMP command. -/
def ChangeRemovableMedia (vm : QemuVM) : Except String (QemuVM × List Action) :=
  match AssertState vm VMState.Started
      "cannot use QemuVM#ChangeRemovableMedia on a non-started VM" with
  | Except.error e => Except.error e
  | Except.ok _ => QmpCommand vm "blockdev-change-medium"

/-- `EjectRemovableMedia(deviceName)`: asserts `Started`, then issues the
`eject` QMP command. -/
def EjectRemovableMedia (vm : QemuVM) : Except String (QemuVM × List Action) :=
  match AssertState vm VMState.Started
      "cannot use QemuVM#EjectRemovableMedia on a non-started VM" with
  | Except.error e => Except.error e
  | Except.ok _ => QmpCommand vm "eject"

/-- `GetDisplayInfo()`. -/
def GetDisplayInfo (vm : QemuVM) : Option QemuVMDisplayInfo :=
  vm.displayInfo

/-- The `statechange` emissions contained in a trace, in order. -/
def emittedStates (acts : List Action) : List VMState :=
  acts.filterMap (fun a => match a with | Action.setState s => some s | _ => none)

/-- Index in a trace at which `Stop()`'s awaited promise resolves: the first
`statechange` emission reporting `Stopped`. -/
def stopResolutionIndex (acts : List Action) : Option Nat :=
  acts.findIdx? (fun a => a = Action.setState VMState.Stopped)

/-- Number of `launch` actions in a trace. -/
def launchCount (acts : List Action) : Nat :=
  acts.countP (fun a => match a with | Action.launch _ => true | _ => false)

/-- A sample definition used to instantiate witness theorems. -/
def sampleDef : QemuVmDefinition :=
  { id := "vm"
    command := "qemu"
    snapshot := true
    forceTcp := false
    vncHost := none
    vncPort := none }

/-- The command line the first `Start()` assembles for `sampleDef`. -/
def sampleAssembled : String :=
  "qemu -no-shutdown -snapshot -qmp stdio -vnc unix:/tmp/superqemu-vm-vnc"

/-- The supervisor object produced by the first `Start()` over `sampleDef`. -/
def sampleStartedVM : QemuVM :=
  { state := VMState.Starting
    qemuProcess := some sampleAssembled
    displayInfo := some (QemuVMDisplayInfo.vncUds "/tmp/superqemu-vm-vnc")
    definition := { sampleDef with command := sampleAssembled }
    addedAdditionalArguments := true }

/-- A TCP definition whose configured `vncPort` is `0` (falsy in JavaScript). -/
def dTcp0 : QemuVmDefinition :=
  { id := "vm0"
    command := "qemu"
    snapshot := false
    forceTcp := true
    vncHost := none
    vncPort := some 0 }

/-- A TCP definition with a defined, nonzero `vncPort` below 5900. -/
def dTcpLow : QemuVmDefinition :=
  { id := "vm1"
    command := "qemu"
    snapshot := false
    forceTcp := true
    vncHost := none
    vncPort := some 100 }

/-- The full command line the first `Start()` assembles from a definition:
the original command with the protocol/display flags appended, mirroring the
branch structure of `Start`. -/
def assembledCommand (win32 : Bool) (d : QemuVmDefinition) : String :=
  let cmd1 := d.command ++ " -no-shutdown"
  let cmd2 := if d.snapshot then cmd1 ++ " -snapshot" else cmd1
  let cmd3 := cmd2 ++ " -qmp stdio"
  if d.forceTcp || win32 then
    cmd3 ++ " -vnc " ++ jsOrStr d.vncHost "127.0.0.1" ++ ":" ++
      toString (jsOrNat d.vncPort 5900 - 5900)
  else
    cmd3 ++ " -vnc unix:" ++ GetVncPath d

/-- The teardown prefix the exit handler performs before branching on
state/exit-code: dispose and null the tracked process, reset the QMP client,
unbind its writer, and (when `!forceTcp || platform !== win32`) best-effort
unlink the VNC UDS socket. -/
def teardownList (win32 : Bool) (d : QemuVmDefinition) : List Action :=
  [Action.disposeProcess, Action.nullProcess, Action.resetClient,
   Action.unbindWriter] ++
    (if !d.forceTcp || !win32 then [Action.unlinkVncSocket] else [])

/-- The sample supervisor after its handshake completed (`connected` fired,
state `Started`), with the launched process still tracked. -/
def runningVM : QemuVM :=
  { sampleStartedVM with state := VMState.Started }

/-- A supervisor instance together with the number of live subprocesses it
has launched and not yet seen exit. -/
structure Sys where
  vm : QemuVM
  live : Nat

/-- External events driving a supervisor: a `Start()` call, a `Stop()` call,
or the tracked process exiting with a code. -/
inductive SysEvent
  | callStart (win32 : Bool)
  | callStop
  | processExit (win32 : Bool) (code : Option Int)

/-- One step of the supervisor system: method calls apply the embedded method
(an exception leaves the system unchanged) and each `launch` action brings one
subprocess to life; a process exit consumes one live subprocess and runs the
exit handler. -/
def SysStep (s : Sys) (e : SysEvent) (s' : Sys) : Prop :=
  match e with
  | SysEvent.callStart win32 =>
    (∃ vm' acts, Start win32 s.vm = Except.ok (vm', acts) ∧
      s' = ⟨vm', s.live + launchCount acts⟩) ∨
    ((Start win32 s.vm).isOk = false ∧ s' = s)
  | SysEvent.callStop =>
    (∃ vm' acts, Stop s.vm = Except.ok (vm', acts) ∧ s' = ⟨vm', s.live⟩) ∨
    ((Stop s.vm).isOk = false ∧ s' = s)
  | SysEvent.processExit win32 code =>
    ∃ split, s.vm.qemuProcess = some split ∧ 1 ≤ s.live ∧
      s' = ⟨(HandleExit win32 s.vm split code).1,
            s.live - 1 + launchCount (HandleExit win32 s.vm split code).2⟩

/-- The single-subprocess invariant: at most one live subprocess, and a
process reference is tracked exactly when one subprocess is live. -/
def SysInv (s : Sys) : Prop :=
  s.live ≤ 1 ∧ (s.vm.qemuProcess.isSome = true ↔ s.live = 1)

/-- C1: for every process-exit event delivered to the supervisor: a zero exit
code outside `Stopping` relaunches the same command line (entering `Starting`
again); a non-zero exit code outside `Stopping` transitions directly to
`Stopped` with no relaunch; in `Stopping` the exit transitions to `Stopped`. -/
theorem C1_exit_branching (win32 : Bool) (vm : QemuVM) (split : String) (code : Int) :
    (vm.state ≠ VMState.Stopping → code = 0 →
      (HandleExit win32 vm split (some code)).1.state = VMState.Starting ∧
      Action.launch split ∈ (HandleExit win32 vm split (some code)).2) ∧
    (vm.state ≠ VMState.Stopping → code ≠ 0 →
      (HandleExit win32 vm split (some code)).1.state = VMState.Stopped ∧
      launchCount (HandleExit win32 vm split (some code)).2 = 0) ∧
    (vm.state = VMState.Stopping →
      (HandleExit win32 vm split (some code)).1.state = VMState.Stopped ∧
      launchCount (HandleExit win32 vm split (some code)).2 = 0) := by
  refine ⟨?_, ?_, ?_⟩
  · intro hns hc
    subst hc
    by_cases hb : (!vm.definition.forceTcp || !win32) = true <;>
      simp [HandleExit, StartQemu, hns, hb]
  · intro hns hc
    have hcode : ¬ ((some code : Option Int) = some 0) := by
      simpa using hc
    by_cases hb : (!vm.definition.forceTcp || !win32) = true <;>
      simp [HandleExit, StartQemu, hns, hb, hcode, launchCount]
  · intro hs
    by_cases hb : (!vm.definition.forceTcp || !win32) = true <;>
      simp [HandleExit, StartQemu, hs, hb, launchCount]

/-- Witness for C1 at a concrete input: a zero-code exit in `Started` with a
non-`Stopping` state relaunches the captured command line. -/
theorem C1_exit_branching_witness :
    (HandleExit false
        { state := VMState.Started, qemuProcess := some "qemu -m 512"
          displayInfo := none, definition := sampleDef
          addedAdditionalArguments := true }
        "qemu -m 512" (some 0)).1.state = VMState.Starting ∧
    Action.launch "qemu -m 512" ∈
      (HandleExit false
        { state := VMState.Started, qemuProcess := some "qemu -m 512"
          displayInfo := none, definition := sampleDef
          addedAdditionalArguments := true }
        "qemu -m 512" (some 0)).2 :=
  (C1_exit_branching false
    { state := VMState.Started, qemuProcess := some "qemu -m 512"
      displayInfo := none, definition := sampleDef
      addedAdditionalArguments := true }
    "qemu -m 512" 0).1 (by decide) rfl

/-- C2 counterexample: a TCP definition with configured `vncPort = 0 < 5900`
is not rejected at all — construction succeeds (the constructor performs no
validation) and the first `Start()` substitutes the default port 5900 and
launches a process. This refutes both parts of the claim at this input: the
violation is neither a construction-time error nor does it prevent a launch. -/
theorem C2_counterexample :
    dTcp0.vncPort = some 0 ∧ (0 : Nat) < 5900 ∧
    Start false (QemuVM.make dTcp0) =
      Except.ok
        ({ state := VMState.Starting
           qemuProcess := some "qemu -no-shutdown -qmp stdio -vnc 127.0.0.1:0"
           displayInfo := some (QemuVMDisplayInfo.vncTcp "127.0.0.1" 5900)
           definition :=
             { dTcp0 with command := "qemu -no-shutdown -qmp stdio -vnc 127.0.0.1:0" }
           addedAdditionalArguments := true },
         [Action.setState VMState.Starting,
          Action.launch "qemu -no-shutdown -qmp stdio -vnc 127.0.0.1:0"]) := by
  refine ⟨rfl, by norm_num, ?_⟩
  rfl

/-- C2 amended: for a TCP definition with a defined, nonzero `vncPort` below
5900, the violation is rejected deterministically at the first `Start()` (not
at construction, which never validates), before any process is launched: the
call throws and produces no launch. A `vncPort` of 0 or `undefined` is instead
substituted with the default 5900 and does not fail. -/
theorem C2_amended (win32 : Bool) (d : QemuVmDefinition) (p : Nat)
    (hf : d.forceTcp = true) (hp : d.vncPort = some p) (hp0 : p ≠ 0)
    (hlt : p < 5900) :
    Start win32 (QemuVM.make d) =
      Except.error "VNC port must be greater than or equal to 5900" := by
  simp [Start, QemuVM.make, hf, hp, jsOrNat, hp0, hlt]

/-- Witness for C2 amended at `vncPort = 100`. -/
theorem C2_amended_witness :
    Start false (QemuVM.make dTcpLow) =
      Except.error "VNC port must be greater than or equal to 5900" :=
  C2_amended false dTcpLow 100 rfl rfl (by decide) (by decide)

/-- C6 counterexample: for a TCP definition with `vncPort = 100`, the first
`Start()` throws during validation before `displayInfo` is assigned, leaving
the supervisor object unchanged (`QemuVM.make dTcpLow`): a start has been
attempted, yet `GetDisplayInfo()` still returns `null`, refuting the claimed
"non-null after the first Start()" direction at this input. -/
theorem C6_counterexample :
    (Start false (QemuVM.make dTcpLow)).isOk = false ∧
    GetDisplayInfo (QemuVM.make dTcpLow) = none := by
  constructor
  · rfl
  · rfl

/-- C6 amended: `GetDisplayInfo()` is `null` before the first `Start()` and
non-null after the first `Start()` that does not throw the port validation
error; it is preserved unchanged by exit handling, by `Stop()`, and by every
later `Start()`. A first `Start()` that throws leaves it `null`. -/
theorem C6_display_iff_started (win32 : Bool) (d : QemuVmDefinition)
    (vm vm' : QemuVM) (acts : List Action) :
    (GetDisplayInfo (QemuVM.make d) = none) ∧
    (vm.addedAdditionalArguments = false → vm.qemuProcess = none →
      Start win32 vm = Except.ok (vm', acts) →
      (GetDisplayInfo vm').isSome = true) ∧
    (∀ split code,
      GetDisplayInfo (HandleExit win32 vm split code).1 = GetDisplayInfo vm) ∧
    (Stop vm = Except.ok (vm', acts) → GetDisplayInfo vm' = GetDisplayInfo vm) ∧
    (vm.addedAdditionalArguments = true → Start win32 vm = Except.ok (vm', acts) →
      GetDisplayInfo vm' = GetDisplayInfo vm) := by
  refine ⟨rfl, ?_, ?_, ?_, ?_⟩
  · intro hadd hproc hstart
    simp [Start, hadd, hproc, StartQemu] at hstart
    split_ifs at hstart <;>
      (simp only [Except.ok.injEq, Prod.mk.injEq] at hstart
       obtain ⟨hv, -⟩ := hstart
       subst hv
       rfl)
  · intro split code
    by_cases hb : (!vm.definition.forceTcp || !win32) = true <;>
      by_cases hs : vm.state = VMState.Stopping <;>
        by_cases hc : code = some 0 <;>
          simp [HandleExit, StartQemu, GetDisplayInfo, hb, hs, hc]
  · intro hstop
    by_cases hs : vm.state = VMState.Started
    · simp [Stop, AssertState, hs] at hstop
      obtain ⟨hv, -⟩ := hstop
      subst hv
      rfl
    · simp [Stop, AssertState, hs] at hstop
  · intro hadd hstart
    by_cases hproc : vm.qemuProcess.isSome = true
    · simp [Start, hproc] at hstart
      obtain ⟨hv, -⟩ := hstart
      subst hv
      rfl
    · simp [Start, hproc, hadd, StartQemu] at hstart
      obtain ⟨hv, -⟩ := hstart
      subst hv
      rfl

/-- Witness for C6 amended: a fresh supervisor over `sampleDef` starts
successfully and has non-null display info afterwards. -/
theorem C6_display_iff_started_witness :
    (GetDisplayInfo (QemuVM.make sampleDef) = none) ∧
    (GetDisplayInfo sampleStartedVM).isSome = true :=
  ⟨(C6_display_iff_started false sampleDef (QemuVM.make sampleDef)
      (QemuVM.make sampleDef) []).1,
   (C6_display_iff_started false sampleDef (QemuVM.make sampleDef)
      sampleStartedVM
      [Action.setState VMState.Starting, Action.launch sampleAssembled]).2.1
      rfl rfl rfl⟩

/-- C3: the protocol/display flags are appended to the definition's command
exactly once, on the first `Start()`: a fresh start sets the assembled command
and flips the once-flag; a later start with the flag set launches the stored
command verbatim without changing it; and the exit handler never touches the
definition or the flag, relaunching the captured command line verbatim. -/
theorem C3_flags_once (win32 : Bool) (vm vm' : QemuVM) (acts : List Action)
    (split : String) (code : Option Int) :
    (vm.addedAdditionalArguments = false → vm.qemuProcess = none →
      Start win32 vm = Except.ok (vm', acts) →
      vm'.addedAdditionalArguments = true ∧
      vm'.definition.command = assembledCommand win32 vm.definition ∧
      acts = [Action.setState VMState.Starting,
              Action.launch (assembledCommand win32 vm.definition)]) ∧
    (vm.addedAdditionalArguments = true → vm.qemuProcess = none →
      Start win32 vm =
        Except.ok
          ({ vm with
              state := VMState.Starting
              qemuProcess := some vm.definition.command },
           [Action.setState VMState.Starting,
            Action.launch vm.definition.command])) ∧
    ((HandleExit win32 vm split code).1.definition = vm.definition ∧
     (HandleExit win32 vm split code).1.addedAdditionalArguments =
       vm.addedAdditionalArguments) ∧
    (vm.state ≠ VMState.Stopping → code = some 0 →
      Action.launch split ∈ (HandleExit win32 vm split code).2) := by
  refine ⟨?_, ?_, ?_, ?_⟩
  · intro hadd hproc hstart
    simp [Start, hadd, hproc, StartQemu] at hstart
    split_ifs at hstart <;>
      (simp only [Except.ok.injEq, Prod.mk.injEq] at hstart
       obtain ⟨hv, hacts⟩ := hstart
       subst hv
       subst hacts
       refine ⟨rfl, ?_, ?_⟩ <;> simp [assembledCommand, *])
  · intro hadd hproc
    simp [Start, hadd, hproc, StartQemu]
  · constructor <;>
      (by_cases hb : (!vm.definition.forceTcp || !win32) = true <;>
        by_cases hs : vm.state = VMState.Stopping <;>
          by_cases hc : code = some 0 <;>
            simp [HandleExit, StartQemu, hb, hs, hc])
  · intro hns hc
    subst hc
    by_cases hb : (!vm.definition.forceTcp || !win32) = true <;>
      simp [HandleExit, StartQemu, hns, hb]

/-- Witness for C3 at `sampleDef`: the first start stores the assembled
command line and marks the flags as added. -/
theorem C3_flags_once_witness :
    sampleStartedVM.addedAdditionalArguments = true ∧
    sampleStartedVM.definition.command = assembledCommand false sampleDef ∧
    [Action.setState VMState.Starting, Action.launch sampleAssembled] =
      [Action.setState VMState.Starting,
       Action.launch (assembledCommand false sampleDef)] :=
  (C3_flags_once false (QemuVM.make sampleDef) sampleStartedVM
    [Action.setState VMState.Starting, Action.launch sampleAssembled]
    "qemu" none).1 rfl rfl rfl

/-- C7: for a definition with `snapshot = true` and no TCP display (and off
the win32 platform branch), the first `Start()` succeeds and the resulting
display info is the UDS kind with path `/tmp/superqemu-<id>-vnc`. -/
theorem C7_uds_display (d : QemuVmDefinition) (vm' : QemuVM)
    (acts : List Action) (hsnap : d.snapshot = true) (hf : d.forceTcp = false) :
    (Start false (QemuVM.make d)).isOk = true ∧
    (Start false (QemuVM.make d) = Except.ok (vm', acts) →
      GetDisplayInfo vm' =
        some (QemuVMDisplayInfo.vncUds ("/tmp/superqemu-" ++ d.id ++ "-vnc"))) := by
  constructor
  · simp [Start, QemuVM.make, hf, StartQemu, Except.isOk, Except.toBool]
  · intro hstart
    simp [Start, QemuVM.make, hf, hsnap, StartQemu] at hstart
    obtain ⟨hv, -⟩ := hstart
    subst hv
    simp [GetDisplayInfo, GetVncPath, kVmTmpPathBase]

/-- Witness for C7 at `sampleDef` (id "vm"): the start succeeds and the
display path is `/tmp/superqemu-vm-vnc`. -/
theorem C7_uds_display_witness :
    (Start false (QemuVM.make sampleDef)).isOk = true ∧
    GetDisplayInfo sampleStartedVM =
      some (QemuVMDisplayInfo.vncUds ("/tmp/superqemu-" ++ "vm" ++ "-vnc")) :=
  ⟨(C7_uds_display sampleDef sampleStartedVM
      [Action.setState VMState.Starting, Action.launch sampleAssembled]
      rfl rfl).1,
   (C7_uds_display sampleDef sampleStartedVM
      [Action.setState VMState.Starting, Action.launch sampleAssembled]
      rfl rfl).2 rfl⟩

/-- C10: with a forced TCP display and falsy `vncPort` (`undefined` or 0) and
falsy `vncHost` (`undefined` or empty), the first `Start()` does not fail —
the port-floor validation is bypassed — and the display info carries the
substituted defaults host "127.0.0.1" and port 5900. -/
theorem C10_tcp_defaults (win32 : Bool) (d : QemuVmDefinition) (vm' : QemuVM)
    (acts : List Action) (hf : d.forceTcp = true)
    (hport : d.vncPort = none ∨ d.vncPort = some 0)
    (hhost : d.vncHost = none ∨ d.vncHost = some "") :
    (Start win32 (QemuVM.make d)).isOk = true ∧
    (Start win32 (QemuVM.make d) = Except.ok (vm', acts) →
      GetDisplayInfo vm' =
        some (QemuVMDisplayInfo.vncTcp "127.0.0.1" 5900)) := by
  have hp : jsOrNat d.vncPort 5900 = 5900 := by
    rcases hport with h | h <;> simp [jsOrNat, h]
  have hh : jsOrStr d.vncHost "127.0.0.1" = "127.0.0.1" := by
    rcases hhost with h | h <;> simp [jsOrStr, h]
  constructor
  · simp [Start, QemuVM.make, hf, hp, StartQemu, Except.isOk, Except.toBool]
  · intro hstart
    simp [Start, QemuVM.make, hf, hp, hh, StartQemu] at hstart
    obtain ⟨hv, -⟩ := hstart
    subst hv
    simp [GetDisplayInfo]

/-- Witness for C10 at `dTcp0` (`vncPort = 0`): the start succeeds and the
display info is TCP 127.0.0.1:5900. -/
theorem C10_tcp_defaults_witness :
    (Start false (QemuVM.make dTcp0)).isOk = true ∧
    GetDisplayInfo
      { state := VMState.Starting
        qemuProcess := some "qemu -no-shutdown -qmp stdio -vnc 127.0.0.1:0"
        displayInfo := some (QemuVMDisplayInfo.vncTcp "127.0.0.1" 5900)
        definition :=
          { dTcp0 with command := "qemu -no-shutdown -qmp stdio -vnc 127.0.0.1:0" }
        addedAdditionalArguments := true } =
      some (QemuVMDisplayInfo.vncTcp "127.0.0.1" 5900) :=
  ⟨(C10_tcp_defaults false dTcp0
      { state := VMState.Starting
        qemuProcess := some "qemu -no-shutdown -qmp stdio -vnc 127.0.0.1:0"
        displayInfo := some (QemuVMDisplayInfo.vncTcp "127.0.0.1" 5900)
        definition :=
          { dTcp0 with command := "qemu -no-shutdown -qmp stdio -vnc 127.0.0.1:0" }
        addedAdditionalArguments := true }
      [Action.setState VMState.Starting,
       Action.launch "qemu -no-shutdown -qmp stdio -vnc 127.0.0.1:0"]
      rfl (Or.inr rfl) (Or.inl rfl)).1,
   (C10_tcp_defaults false dTcp0
      { state := VMState.Starting
        qemuProcess := some "qemu -no-shutdown -qmp stdio -vnc 127.0.0.1:0"
        displayInfo := some (QemuVMDisplayInfo.vncTcp "127.0.0.1" 5900)
        definition :=
          { dTcp0 with command := "qemu -no-shutdown -qmp stdio -vnc 127.0.0.1:0" }
        addedAdditionalArguments := true }
      [Action.setState VMState.Starting,
       Action.launch "qemu -no-shutdown -qmp stdio -vnc 127.0.0.1:0"]
      rfl (Or.inr rfl) (Or.inl rfl)).2 rfl⟩

/-- C5 counterexample: the generic protocol command execution (`QmpCommand`)
performs no state assertion: invoked on a freshly constructed (Stopped)
supervisor it does not raise a precondition fault but passes the command
straight through to the QMP client, refuting the claim for this operation. -/
theorem C5_counterexample :
    (QemuVM.make sampleDef).state ≠ VMState.Started ∧
    QmpCommand (QemuVM.make sampleDef) "query-status" =
      Except.ok (QemuVM.make sampleDef, [Action.qmpExecute "query-status"]) :=
  ⟨by decide, rfl⟩

/-- C5 amended: of the command surface, the monitor helper, removable-media
change and eject raise a precondition fault synchronously in any state other
than `Started` (the thrown error returns before any QMP pass-through, process
spawn or state change); the generic `QmpCommand`, however, checks nothing and
passes through in every state. -/
theorem C5_started_only_commands (vm : QemuVM) (mcmd : String)
    (h : vm.state ≠ VMState.Started) :
    MonitorCommand vm mcmd =
      Except.error "cannot use QemuVM#MonitorCommand on a non-started VM" ∧
    ChangeRemovableMedia vm =
      Except.error "cannot use QemuVM#ChangeRemovableMedia on a non-started VM" ∧
    EjectRemovableMedia vm =
      Except.error "cannot use QemuVM#EjectRemovableMedia on a non-started VM" ∧
    (∀ c, QmpCommand vm c = Except.ok (vm, [Action.qmpExecute c])) := by
  refine ⟨?_, ?_, ?_, fun c => rfl⟩ <;>
    simp [MonitorCommand, ChangeRemovableMedia, EjectRemovableMedia,
      AssertState, h]

/-- Witness for C5 amended on a Stopped supervisor. -/
theorem C5_started_only_commands_witness :
    MonitorCommand (QemuVM.make sampleDef) "info" =
      Except.error "cannot use QemuVM#MonitorCommand on a non-started VM" ∧
    ChangeRemovableMedia (QemuVM.make sampleDef) =
      Except.error "cannot use QemuVM#ChangeRemovableMedia on a non-started VM" ∧
    EjectRemovableMedia (QemuVM.make sampleDef) =
      Except.error "cannot use QemuVM#EjectRemovableMedia on a non-started VM" ∧
    (∀ c, QmpCommand (QemuVM.make sampleDef) c =
      Except.ok (QemuVM.make sampleDef, [Action.qmpExecute c])) :=
  C5_started_only_commands (QemuVM.make sampleDef) "info" (by decide)

/-- C9 counterexample: at a zero-code exit in `Started`, the handler's actual
action order is dispose/null the process first, then reset the client and
unbind the writer, then unlink the socket: the first `nullProcess` (index 1)
precedes the first `resetClient` (index 2), contradicting the claimed order in
which the client unbind/reset (step 1) precedes the nulling of the process
reference (step 3). -/
theorem C9_counterexample :
    (HandleExit false runningVM sampleAssembled (some 0)).2 =
      [Action.disposeProcess, Action.nullProcess, Action.resetClient,
       Action.unbindWriter, Action.unlinkVncSocket,
       Action.setState VMState.Starting, Action.launch sampleAssembled] ∧
    (HandleExit false runningVM sampleAssembled (some 0)).2.findIdx?
        (fun a => decide (a = Action.nullProcess)) = some 1 ∧
    (HandleExit false runningVM sampleAssembled (some 0)).2.findIdx?
        (fun a => decide (a = Action.resetClient)) = some 2 :=
  ⟨rfl, rfl, rfl⟩

/-- C9 amended: on every process exit the handler performs, in order: it
disposes and nulls the tracked process reference, resets the QMP client,
unbinds its writer, and best-effort unlinks the socket in the applicable
configuration; only after this complete teardown does it branch on
state/exit-code, and the relaunch (when taken) is computed from the
already-nulled process reference. -/
theorem C9_teardown_order (win32 : Bool) (vm : QemuVM) (split : String)
    (code : Option Int) :
    ((HandleExit win32 vm split code).2 =
      teardownList win32 vm.definition ++
        (if vm.state ≠ VMState.Stopping then
           if code = some 0 then
             [Action.setState VMState.Starting, Action.launch split]
           else
             [Action.logError, Action.setState VMState.Stopped,
              Action.nullProcess]
         else [Action.setState VMState.Stopped, Action.nullProcess])) ∧
    (vm.state ≠ VMState.Stopping → code = some 0 →
      StartQemu { vm with qemuProcess := none } split =
        ((HandleExit win32 vm split code).1,
         [Action.setState VMState.Starting, Action.launch split])) := by
  constructor
  · by_cases hb : (!vm.definition.forceTcp || !win32) = true <;>
      by_cases hs : vm.state = VMState.Stopping <;>
        by_cases hc : code = some 0 <;>
          simp [HandleExit, StartQemu, teardownList, hb, hs, hc]
  · intro hs hc
    subst hc
    simp [HandleExit, StartQemu, hs]

/-- Witness for C9 amended at a zero-code exit in `Started`. -/
theorem C9_teardown_order_witness :
    StartQemu { runningVM with qemuProcess := none } sampleAssembled =
      ((HandleExit false runningVM sampleAssembled (some 0)).1,
       [Action.setState VMState.Starting, Action.launch sampleAssembled]) :=
  (C9_teardown_order false runningVM sampleAssembled (some 0)).2
    (by decide) rfl

/-- C4: when `Stop()` is called in `Started`, the supervisor synchronously
transitions to `Stopping` (the first emitted state-change), the subsequent
process exit transitions it to `Stopped`, the full observed state sequence is
`Stopping, Stopped`, and the completion awaited by `Stop()` resolves exactly
at the `Stopped` emission — after the whole teardown, never before. -/
theorem C4_stop_ordering (win32 : Bool) (vm vm1 : QemuVM)
    (stopActs : List Action) (split : String) (code : Option Int)
    (hstarted : vm.state = VMState.Started)
    (hstop : Stop vm = Except.ok (vm1, stopActs)) :
    vm1.state = VMState.Stopping ∧
    stopActs.head? = some (Action.setState VMState.Stopping) ∧
    (HandleExit win32 vm1 split code).1.state = VMState.Stopped ∧
    emittedStates (stopActs ++ (HandleExit win32 vm1 split code).2) =
      [VMState.Stopping, VMState.Stopped] ∧
    stopResolutionIndex (stopActs ++ (HandleExit win32 vm1 split code).2) =
      some (stopActs.length + (teardownList win32 vm1.definition).length) := by
  simp [Stop, AssertState, hstarted] at hstop
  obtain ⟨hv, ha⟩ := hstop
  subst hv
  subst ha
  refine ⟨rfl, ?_, rfl, ?_, ?_⟩
  · by_cases hk : vm.qemuProcess.isSome = true <;> simp [hk]
  · by_cases hk : vm.qemuProcess.isSome = true <;>
      by_cases hb : (!vm.definition.forceTcp || !win32) = true <;>
        simp [HandleExit, emittedStates, hk, hb]
  · by_cases hk : vm.qemuProcess.isSome = true <;>
      by_cases hb : (!vm.definition.forceTcp || !win32) = true <;>
        simp [HandleExit, stopResolutionIndex, teardownList, hk, hb,
          List.findIdx?]

/-- Witness for C4: stopping the running sample supervisor. -/
theorem C4_stop_ordering_witness :
    emittedStates ([Action.setState VMState.Stopping, Action.killProcess] ++
      (HandleExit false { runningVM with state := VMState.Stopping }
        sampleAssembled (some 0)).2) =
      [VMState.Stopping, VMState.Stopped] :=
  (C4_stop_ordering false runningVM
    { runningVM with state := VMState.Stopping }
    [Action.setState VMState.Stopping, Action.killProcess]
    sampleAssembled (some 0) rfl rfl).2.2.2.1

/-- A successful `Start()` from an untracked-process supervisor tracks the new
process and performs exactly one launch. -/
theorem Start_untracked_launch (win32 : Bool) (vm vm' : QemuVM)
    (acts : List Action) (hproc : vm.qemuProcess.isSome = false)
    (h : Start win32 vm = Except.ok (vm', acts)) :
    vm'.qemuProcess.isSome = true ∧ launchCount acts = 1 := by
  by_cases hadd : vm.addedAdditionalArguments = false
  · simp [Start, hproc, hadd, StartQemu] at h
    split_ifs at h <;>
      (simp only [Except.ok.injEq, Prod.mk.injEq] at h
       obtain ⟨hv, ha⟩ := h
       subst hv
       subst ha
       exact ⟨rfl, by simp [launchCount]⟩)
  · simp [Start, hproc, hadd, StartQemu] at h
    obtain ⟨hv, ha⟩ := h
    subst hv
    subst ha
    exact ⟨rfl, by simp [launchCount]⟩

/-- The exit handler either relaunches (tracking the new process, exactly one
launch) or leaves the process untracked with no launch. -/
theorem HandleExit_track_launch (win32 : Bool) (vm : QemuVM) (split : String)
    (code : Option Int) :
    ((HandleExit win32 vm split code).1.qemuProcess.isSome = true ∧
      launchCount (HandleExit win32 vm split code).2 = 1) ∨
    ((HandleExit win32 vm split code).1.qemuProcess.isSome = false ∧
      launchCount (HandleExit win32 vm split code).2 = 0) := by
  by_cases hs : vm.state = VMState.Stopping
  · right
    by_cases hb : (!vm.definition.forceTcp || !win32) = true <;>
      simp [HandleExit, StartQemu, launchCount, hs, hb]
  · by_cases hc : code = some 0
    · left
      by_cases hb : (!vm.definition.forceTcp || !win32) = true <;>
        simp [HandleExit, StartQemu, launchCount, hs, hb, hc]
    · right
      by_cases hb : (!vm.definition.forceTcp || !win32) = true <;>
        simp [HandleExit, StartQemu, launchCount, hs, hb, hc]

/-- C8: `Start()` with a tracked process is an exact no-op (same object, no
actions, hence no second launch and no state or command change); the
single-subprocess invariant — at most one live subprocess, live exactly when
a process is tracked — holds initially and is preserved by every system step
(`Start()`/`Stop()` calls and process exits). -/
theorem C8_single_subprocess (win32 : Bool) (vm : QemuVM)
    (d : QemuVmDefinition) (s s' : Sys) (e : SysEvent) :
    (vm.qemuProcess.isSome = true → Start win32 vm = Except.ok (vm, [])) ∧
    SysInv ⟨QemuVM.make d, 0⟩ ∧
    (SysInv s → SysStep s e s' → SysInv s') := by
  refine ⟨?_, ?_, ?_⟩
  · intro h
    simp [Start, h]
  · exact ⟨by simp, by simp [QemuVM.make]⟩
  · intro hinv hstep
    obtain ⟨hle, hiff⟩ := hinv
    cases e with
    | callStart win32' =>
      rcases hstep with ⟨vm', acts, hok, hs'⟩ | ⟨-, hs'⟩
      · by_cases hp : s.vm.qemuProcess.isSome = true
        · have hnoop : Start win32' s.vm = Except.ok (s.vm, []) := by
            simp [Start, hp]
          rw [hnoop] at hok
          simp only [Except.ok.injEq, Prod.mk.injEq] at hok
          obtain ⟨hv, ha⟩ := hok
          subst hs'
          subst hv
          subst ha
          exact ⟨by simpa [launchCount] using hle,
                 by simpa [launchCount] using hiff⟩
        · have hp' : s.vm.qemuProcess.isSome = false := by simpa using hp
          have hlive : s.live = 0 := by
            have h1 : ¬ s.live = 1 := fun h1 => by
              rw [← hiff] at h1
              exact hp (by simp [h1])
            omega
          obtain ⟨ht, hc⟩ := Start_untracked_launch win32' s.vm vm' acts hp' hok
          subst hs'
          exact ⟨by simp [hlive, hc], by simp [ht, hlive, hc]⟩
      · subst hs'
        exact ⟨hle, hiff⟩
    | callStop =>
      rcases hstep with ⟨vm', acts, hok, hs'⟩ | ⟨-, hs'⟩
      · by_cases hsS : s.vm.state = VMState.Started
        · simp [Stop, AssertState, hsS] at hok
          obtain ⟨hv, -⟩ := hok
          subst hs'
          subst hv
          exact ⟨hle, hiff⟩
        · simp [Stop, AssertState, hsS] at hok
      · subst hs'
        exact ⟨hle, hiff⟩
    | processExit win32' code =>
      obtain ⟨split, htrack, hlive1, hs'⟩ := hstep
      have hlive : s.live = 1 := hiff.mp (by simp [htrack])
      rcases HandleExit_track_launch win32' s.vm split code with
        ⟨ht, hc⟩ | ⟨ht, hc⟩ <;>
        (subst hs'
         exact ⟨by simp [hlive, hc], by simp [ht, hlive, hc]⟩)

/-- Witness for C8: the no-op start on the tracked sample supervisor, the
initial invariant, and invariant preservation across the first start step. -/
theorem C8_single_subprocess_witness :
    Start false sampleStartedVM = Except.ok (sampleStartedVM, []) ∧
    SysInv ⟨QemuVM.make sampleDef, 0⟩ ∧
    SysInv ⟨sampleStartedVM, 1⟩ :=
  ⟨(C8_single_subprocess false sampleStartedVM sampleDef
      ⟨QemuVM.make sampleDef, 0⟩ ⟨sampleStartedVM, 1⟩
      (SysEvent.callStart false)).1 rfl,
   (C8_single_subprocess false sampleStartedVM sampleDef
      ⟨QemuVM.make sampleDef, 0⟩ ⟨sampleStartedVM, 1⟩
      (SysEvent.callStart false)).2.1,
   (C8_single_subprocess false sampleStartedVM sampleDef
      ⟨QemuVM.make sampleDef, 0⟩ ⟨sampleStartedVM, 1⟩
      (SysEvent.callStart false)).2.2
     ⟨by decide, by decide⟩
     (Or.inl ⟨sampleStartedVM,
       [Action.setState VMState.Starting, Action.launch sampleAssembled],
       rfl, rfl⟩)⟩

end Superqemu
